import Mathlib

/-!
Verification of the Bingham viscoplastic material model of the MPM solver
(`src/include/material/bingham.tcc`, with the particle interface of
`src/include/particle.h`).

Doubles are modelled as real numbers.  A `nlohmann::json` object is modelled,
as far as the material configuration code observes it, as a partial map from
key strings to parsed double values: `none` stands for a key that is missing
or whose value cannot be converted to `double` (both make `get<double>()`
throw in the C++ source).  Observable side effects of member functions (the
mutation of `critical_shear_rate_`, the message printed to `std::cerr` by an
internally caught exception) are returned explicitly.
-/

namespace MPM

/-- A 6-component Voigt vector (`Eigen::Matrix<double, 6, 1>`). -/
abbrev Vector6 := Fin 6 → ℝ

/-- `Eigen`'s dot product of two 6-component vectors (`a.dot(b)`). -/
def dot6 (a b : Vector6) : ℝ := ∑ i, a i * b i

/-- The dirac-delta vector in Voigt notation, `dirac_delta << 1, 1, 1, 0, 0, 0`
(bingham.tcc lines 97-98). -/
def dirac_delta : Vector6 := ![1, 1, 1, 0, 0, 0]

/-- The part of a `ParticleBase<Tdim>` that the Bingham model can observe
through the pointer it receives (`particle.h`): per-phase state, accessed by
phase index.  Only `strain_rate` is read by `Bingham::compute_stress`; the
remaining fields are carried to make dependence claims meaningful. -/
structure ParticleBase where
  id_ : ℕ
  nphases : ℕ
  mass : ℕ → ℝ
  strain : ℕ → Vector6
  strain_rate : ℕ → Vector6
  stress : ℕ → Vector6

/-- Model of the JSON parameter dictionary as the Bingham configuration code
observes it: `j k = some v` when key `k` is present and parses as the double
`v`, and `j k = none` when the key is missing or unparseable (in which case
`material_properties[k].get<double>()` throws). -/
abbrev Json := String → Option ℝ

/-- The configuration state of a `mpm::Bingham<Tdim>` material: the six scalar
parameters, the stored copy `properties_` of the JSON input, and the status
flag (`bingham.h` members, as read and written by `bingham.tcc`). -/
structure Bingham where
  density_ : ℝ
  youngs_modulus_ : ℝ
  poisson_ratio_ : ℝ
  tau0_ : ℝ
  mu_ : ℝ
  critical_shear_rate_ : ℝ
  properties_ : Json
  status_ : Bool

/-- The six required JSON keys, in the order `Bingham::properties` reads them
(bingham.tcc lines 5-13). -/
def requiredKeys : List String :=
  ["density", "youngs_modulus", "poisson_ratio", "tau0", "mu", "critical_shear_rate"]

/-- The required key at a given position of the read order. -/
def requiredKey (i : Fin 6) : String := requiredKeys.get (Fin.cast (by decide) i)

/-- `true` iff every one of the six required keys is present and parseable. -/
def allKeysParse (j : Json) : Bool :=
  requiredKeys.all fun k => (j k).isSome

/-- The scalar parameter of a Bingham material at a given position of the
read order of `Bingham::properties`. -/
def Bingham.param (m : Bingham) : Fin 6 → ℝ
  | 0 => m.density_
  | 1 => m.youngs_modulus_
  | 2 => m.poisson_ratio_
  | 3 => m.tau0_
  | 4 => m.mu_
  | 5 => m.critical_shear_rate_

/-- Shallow embedding of `mpm::Bingham<Tdim>::properties` (bingham.tcc lines
2-19).  The C++ reads the six keys in order inside one `try` block; the first
key that is missing or unparseable throws, the `catch` prints the message to
`std::cerr` and returns, so the assignments made before the failing key are
kept and neither `properties_` nor `status_` is touched.  The nested matches
reproduce exactly that sequential, non-rolled-back assignment. -/
def Bingham.properties (m : Bingham) (material_properties : Json) : Bingham :=
  match material_properties ("density") with
  | none => m
  | some density =>
    match material_properties ("youngs_modulus") with
    | none => { m with density_ := density }
    | some youngs_modulus =>
      match material_properties ("poisson_ratio") with
      | none => { m with density_ := density, youngs_modulus_ := youngs_modulus }
      | some poisson_ratio =>
        match material_properties ("tau0") with
        | none => { m with density_ := density, youngs_modulus_ := youngs_modulus,
                           poisson_ratio_ := poisson_ratio }
        | some tau0 =>
          match material_properties ("mu") with
          | none => { m with density_ := density, youngs_modulus_ := youngs_modulus,
                             poisson_ratio_ := poisson_ratio, tau0_ := tau0 }
          | some mu =>
            match material_properties ("critical_shear_rate") with
            | none => { m with density_ := density, youngs_modulus_ := youngs_modulus,
                               poisson_ratio_ := poisson_ratio, tau0_ := tau0, mu_ := mu }
            | some critical_shear_rate =>
              { density_ := density, youngs_modulus_ := youngs_modulus,
                poisson_ratio_ := poisson_ratio, tau0_ := tau0, mu_ := mu,
                critical_shear_rate_ := critical_shear_rate,
                properties_ := material_properties, status_ := true }

/-- `mpm::Bingham<Tdim>::elastic_tensor` (bingham.tcc lines 22-31): builds a
local zero matrix and unconditionally throws before returning; no member is
read or written.  The thrown `std::runtime_error` is modelled as `Except.error`
and the (unchanged) material state is returned alongside it. -/
def Bingham.elastic_tensor (m : Bingham) :
    Except String (Fin 6 → Fin 6 → ℝ) × Bingham :=
  (Except.error ("Elastic tensor is not used for this material"), m)

/-- The two-argument `mpm::Bingham<Tdim>::compute_stress` (bingham.tcc lines
34-44): builds a local zero vector and unconditionally throws before
returning; no member is read or written. -/
def Bingham.compute_stress (m : Bingham) (stress dstrain : Vector6) :
    Except String Vector6 × Bingham :=
  (Except.error ("Stress computation for this material is not valid"), m)

/-- The minimum-accuracy threshold for the critical shear rate,
`shear_rate_threshold = 1.0E-15` (bingham.tcc line 66). -/
noncomputable def shear_rate_threshold : ℝ := 1e-15

/-- The value of the member `critical_shear_rate_` after the flooring
assignment of bingham.tcc lines 67-68 (`if (critical_shear_rate_ <
shear_rate_threshold) critical_shear_rate_ = shear_rate_threshold;`). -/
noncomputable def Bingham.floored_critical_shear_rate (m : Bingham) : ℝ :=
  if m.critical_shear_rate_ < shear_rate_threshold then shear_rate_threshold
  else m.critical_shear_rate_

/-- The viscosity-weighted modulus of bingham.tcc lines 74-79: with
`shear_rate = 2 * strain_rate.dot(strain_rate)`, the modulus is
`2 * (tau0_ / sqrt(shear_rate) + mu_)` when `shear_rate` exceeds the square of
the (already floored) `critical_shear_rate_`, and `0` otherwise. -/
noncomputable def Bingham.apparent_modulus (m : Bingham) (strain_rate : Vector6) : ℝ :=
  let shear_rate := 2 * dot6 strain_rate strain_rate
  if shear_rate > m.floored_critical_shear_rate * m.floored_critical_shear_rate then
    2 * ((m.tau0_ / Real.sqrt shear_rate) + m.mu_)
  else 0

/-- The deviatoric stress after the von Mises correction, bingham.tcc lines
84-91: the trial `tau = modulus * strain_rate` is zeroed entirely when its
second invariant `tau.dot(tau)` is below `2 * tau0_ * tau0_`, and kept
unchanged otherwise. -/
noncomputable def Bingham.tau_final (m : Bingham) (strain_rate : Vector6) : Vector6 :=
  let tau : Vector6 := fun i => m.apparent_modulus strain_rate * strain_rate i
  if dot6 tau tau < 2 * (m.tau0_ * m.tau0_) then (fun _ => 0) else tau

/-- The updated pressure of bingham.tcc lines 55-63: bulk modulus
`K = youngs_modulus_ / (3 * (1 - 2 * poisson_ratio_))`, old pressure
`(stress(0) + stress(1) + stress(2)) / 3`, and pressure increment
`K * (dstrain(0) + dstrain(1) + dstrain(2))`. -/
noncomputable def Bingham.pressure_new (m : Bingham) (stress dstrain : Vector6) : ℝ :=
  let K := m.youngs_modulus_ / (3 * (1 - 2 * m.poisson_ratio_))
  let pressure_old := (stress 0 + stress 1 + stress 2) / 3
  let dpressure := K * (dstrain 0 + dstrain 1 + dstrain 2)
  pressure_old + dpressure

/-- The full observable outcome of one call to the three-argument
`Bingham::compute_stress`: the returned stress, the material configuration
state after the call (the call may floor `critical_shear_rate_`), and the
message printed to `std::cerr` when the internal `throw` of the dimension
check is caught by the function's own `catch` block. -/
structure StressResult where
  stress_results : Vector6
  material : Bingham
  error_logged : Option String

/-- Shallow embedding of the three-argument
`mpm::Bingham<Tdim>::compute_stress(stress, dstrain, ptr)` (bingham.tcc lines
47-114).  It reads the strain rate of phase 0 of the particle, updates the
pressure, floors the member `critical_shear_rate_` (a genuine mutation of the
material's configuration), computes the viscosity-weighted modulus and the
von Mises-corrected deviatoric stress `tau`, and assembles the result by
dimension.  The `if / else if / else` chain of lines 100-108 is rendered per
result field; its `else` branch throws a `std::runtime_error` that is caught
by the surrounding `catch` of lines 109-111, which prints the message and
lets the function return the still-zero `stress_results`. -/
noncomputable def Bingham.compute_stress3 (m : Bingham) (Tdim : ℕ)
    (stress dstrain : Vector6) (ptr : ParticleBase) : StressResult :=
  let phase : ℕ := 0
  let strain_rate := ptr.strain_rate phase
  let p_new := m.pressure_new stress dstrain
  let tau := m.tau_final strain_rate
  { stress_results :=
      if Tdim = 2 then
        fun i =>
          if i = 0 then tau 0 + p_new
          else if i = 1 then tau 1 + p_new
          else if i = 3 then tau 2
          else 0
      else if Tdim = 3 then
        fun i => p_new * dirac_delta i + tau i
      else
        fun _ => 0
    material := { m with critical_shear_rate_ := m.floored_critical_shear_rate }
    error_logged :=
      if Tdim = 2 ∨ Tdim = 3 then none
      else some ("Material model is not for 1D problem") }

/-! Sample inputs used to instantiate the theorems below on concrete data. -/

/-- The all-zero Voigt vector. -/
def zero6 : Vector6 := fun _ => 0

/-- The all-one Voigt vector. -/
def ones6 : Vector6 := fun _ => 1

/-- An empty JSON dictionary. -/
def json_none : Json := fun _ => none

/-- A Bingham configuration whose critical shear rate is zero. -/
def bingham_zero_crit : Bingham :=
  { density_ := 1000, youngs_modulus_ := 1000000, poisson_ratio_ := 0,
    tau0_ := 0, mu_ := 0, critical_shear_rate_ := 0,
    properties_ := json_none, status_ := false }

/-- A Bingham configuration with zero yield stress (Newtonian limit sample). -/
def bingham_newtonian : Bingham :=
  { density_ := 1000, youngs_modulus_ := 1000000, poisson_ratio_ := 0,
    tau0_ := 0, mu_ := 5, critical_shear_rate_ := 1,
    properties_ := json_none, status_ := false }

/-- A Bingham configuration with a nonzero yield stress. -/
def bingham_yield : Bingham :=
  { density_ := 1000, youngs_modulus_ := 1000000, poisson_ratio_ := 0,
    tau0_ := 1, mu_ := 5, critical_shear_rate_ := 1,
    properties_ := json_none, status_ := false }

/-- A particle at rest: every phase has a zero strain rate. -/
def particle_rest : ParticleBase :=
  { id_ := 0, nphases := 1, mass := fun _ => 1, strain := fun _ => zero6,
    strain_rate := fun _ => zero6, stress := fun _ => zero6 }

/-- A particle with a unit strain rate in every component of every phase. -/
def particle_shear : ParticleBase :=
  { id_ := 1, nphases := 1, mass := fun _ => 1, strain := fun _ => zero6,
    strain_rate := fun _ => ones6, stress := fun _ => zero6 }

/-- A single-phase particle whose phase-0 strain rate is `ones6`. -/
def particleA : ParticleBase :=
  { id_ := 2, nphases := 1, mass := fun _ => 2, strain := fun _ => zero6,
    strain_rate := fun ph => if ph = 0 then ones6 else (fun _ => 5),
    stress := fun _ => zero6 }

/-- A two-phase particle that agrees with `particleA` on the phase-0 strain
rate but differs everywhere else. -/
def particleB : ParticleBase :=
  { id_ := 3, nphases := 2, mass := fun _ => 9, strain := fun _ => ones6,
    strain_rate := fun ph => if ph = 0 then ones6 else (fun _ => 7),
    stress := fun _ => ones6 }

/-- A JSON dictionary providing all six required Bingham parameters. -/
def json_full : Json := fun k =>
  if k = "density" then some 1000
  else if k = "youngs_modulus" then some 1000000
  else if k = "poisson_ratio" then some 0
  else if k = "tau0" then some 700
  else if k = "mu" then some 5
  else if k = "critical_shear_rate" then some 1
  else none

/-- A JSON dictionary providing only `density`: the second key read by
`Bingham::properties` is missing. -/
def json_missing_young : Json := fun k =>
  if k = "density" then some 1000 else none

/-! Helper lemmas. -/

/-- The flooring of bingham.tcc lines 67-68 computes the maximum of the stored
critical shear rate and the threshold. -/
theorem floored_critical_shear_rate_eq_max (m : Bingham) :
    m.floored_critical_shear_rate = max m.critical_shear_rate_ shear_rate_threshold := by
  unfold Bingham.floored_critical_shear_rate
  rcases lt_or_le m.critical_shear_rate_ shear_rate_threshold with h | h
  · rw [if_pos h, max_eq_right h.le]
  · rw [if_neg (not_lt.mpr h), max_eq_left h]

/-- At a zero strain rate the von Mises-corrected deviatoric stress vanishes. -/
theorem tau_final_rest (m : Bingham) : m.tau_final (fun _ => 0) = fun _ => 0 := by
  simp only [Bingham.tau_final, mul_zero, ite_self]

/-! Claim theorems. -/

/-- C1 (counterexample): the three-argument `compute_stress` does not leave the
stored `critical_shear_rate_` unchanged on every input: on a material whose
critical shear rate is `0`, the call floors it to `1e-15` (bingham.tcc lines
67-68 assign the member). -/
theorem bingham_compute_stress_mutates_critical_shear_rate :
    (bingham_zero_crit.compute_stress3 2 zero6 zero6 particle_rest).material.critical_shear_rate_
      ≠ bingham_zero_crit.critical_shear_rate_ := by
  show bingham_zero_crit.floored_critical_shear_rate ≠ bingham_zero_crit.critical_shear_rate_
  unfold Bingham.floored_critical_shear_rate bingham_zero_crit shear_rate_threshold
  rw [if_pos (by norm_num : (0:ℝ) < 1e-15)]
  norm_num

/-- C1 (amended): the three-argument `compute_stress` leaves every part of the
material's configuration state unchanged except the stored
`critical_shear_rate_`, which the call floors at `1e-15`: the configuration
after the call is the old one with `critical_shear_rate_` replaced by
`max critical_shear_rate_ 1e-15` (so it is unchanged exactly when it was at
least `1e-15`). -/
theorem bingham_compute_stress_config_frame (m : Bingham) (Tdim : ℕ)
    (stress dstrain : Vector6) (ptr : ParticleBase) :
    (m.compute_stress3 Tdim stress dstrain ptr).material =
      { m with critical_shear_rate_ := max m.critical_shear_rate_ (1e-15) } := by
  show { m with critical_shear_rate_ := m.floored_critical_shear_rate } =
    { m with critical_shear_rate_ := max m.critical_shear_rate_ (1e-15) }
  rw [floored_critical_shear_rate_eq_max]
  rfl

/-- C2 (counterexample): at `Tdim = 1` the three-argument `compute_stress`
does not let an exception propagate: the call returns the zero stress vector,
the thrown `std::runtime_error` having been caught by the function's own
`catch` block (bingham.tcc lines 99-111), which merely logs the message. -/
theorem bingham_compute_stress_1d_returns_value :
    (bingham_zero_crit.compute_stress3 1 zero6 zero6 particle_rest).stress_results
        = (fun _ => 0) ∧
    (bingham_zero_crit.compute_stress3 1 zero6 zero6 particle_rest).error_logged
        = some ("Material model is not for 1D problem") := by
  exact ⟨rfl, rfl⟩

/-- C2 (amended): for every `Tdim` other than 2 or 3, the three-argument
`compute_stress` throws a `std::runtime_error` that it immediately catches
itself: no exception reaches the caller; the function logs the message
"Material model is not for 1D problem" to `std::cerr` and returns the
still-zero stress vector. -/
theorem bingham_compute_stress_invalid_dim (m : Bingham) (Tdim : ℕ)
    (stress dstrain : Vector6) (ptr : ParticleBase)
    (h2 : Tdim ≠ 2) (h3 : Tdim ≠ 3) :
    (m.compute_stress3 Tdim stress dstrain ptr).stress_results = (fun _ => 0) ∧
    (m.compute_stress3 Tdim stress dstrain ptr).error_logged =
      some ("Material model is not for 1D problem") := by
  simp only [Bingham.compute_stress3]
  rw [if_neg h2, if_neg h3, if_neg (by tauto : ¬ (Tdim = 2 ∨ Tdim = 3))]
  exact ⟨rfl, rfl⟩

/-- C2 (witness): the amended claim instantiated at `Tdim = 4`. -/
theorem bingham_compute_stress_invalid_dim_witness :
    ((4:ℕ) ≠ 2) ∧ ((4:ℕ) ≠ 3) ∧
    (bingham_newtonian.compute_stress3 4 zero6 zero6 particle_rest).stress_results
        = (fun _ => 0) ∧
    (bingham_newtonian.compute_stress3 4 zero6 zero6 particle_rest).error_logged
        = some ("Material model is not for 1D problem") :=
  ⟨by decide, by decide,
    (bingham_compute_stress_invalid_dim bingham_newtonian 4 zero6 zero6 particle_rest
      (by decide) (by decide)).1,
    (bingham_compute_stress_invalid_dim bingham_newtonian 4 zero6 zero6 particle_rest
      (by decide) (by decide)).2⟩

/-- C5: on a Bingham material, `elastic_tensor()` and the two-argument
`compute_stress(stress, dstrain)` signal a usage error on every input — both
return the thrown `std::runtime_error` as an error outcome — and neither
mutates the material state (nor any stress state, which they only receive by
constant reference). -/
theorem bingham_unsupported_paths_error (m : Bingham) (stress dstrain : Vector6) :
    m.elastic_tensor =
      (Except.error ("Elastic tensor is not used for this material"), m) ∧
    m.compute_stress stress dstrain =
      (Except.error ("Stress computation for this material is not valid"), m) :=
  ⟨rfl, rfl⟩

/-- C10: the three-argument `compute_stress` reads only the phase-0 strain
rate of the supplied particle (bingham.tcc lines 52-53): two particles that
agree there produce identical results, including for multi-phase particles
that differ in every other field. -/
theorem bingham_reads_phase_zero_only (m : Bingham) (Tdim : ℕ)
    (stress dstrain : Vector6) (p1 p2 : ParticleBase)
    (h : p1.strain_rate 0 = p2.strain_rate 0) :
    m.compute_stress3 Tdim stress dstrain p1 = m.compute_stress3 Tdim stress dstrain p2 := by
  simp only [Bingham.compute_stress3, h]

/-- C10 (witness): instantiated on two particles differing in phase count,
mass, strain, stress and phase-1 strain rate. -/
theorem bingham_reads_phase_zero_only_witness :
    particleA.strain_rate 0 = particleB.strain_rate 0 ∧
    bingham_yield.compute_stress3 3 zero6 ones6 particleA =
      bingham_yield.compute_stress3 3 zero6 ones6 particleB :=
  ⟨rfl, bingham_reads_phase_zero_only bingham_yield 3 zero6 ones6 particleA particleB rfl⟩

/-- C3: with `g = 2 * (strain_rate . strain_rate)`, the apparent modulus
equals `2 * (tau0 / sqrt g + mu)` whenever `g` exceeds the square of the
critical shear rate (the in-effect, floored value of bingham.tcc line 68), and
equals `0` otherwise; and with `tau0 = 0` and a strain rate above that
threshold it reduces to the Newtonian value `2 * mu`. -/
theorem bingham_apparent_modulus_spec (m : Bingham) (sr : Vector6) :
    (2 * dot6 sr sr > m.floored_critical_shear_rate ^ 2 →
      m.apparent_modulus sr = 2 * (m.tau0_ / Real.sqrt (2 * dot6 sr sr) + m.mu_)) ∧
    (2 * dot6 sr sr ≤ m.floored_critical_shear_rate ^ 2 →
      m.apparent_modulus sr = 0) ∧
    (m.tau0_ = 0 → 2 * dot6 sr sr > m.floored_critical_shear_rate ^ 2 →
      m.apparent_modulus sr = 2 * m.mu_) := by
  refine ⟨?_, ?_, ?_⟩
  · intro h
    rw [pow_two] at h
    simp only [Bingham.apparent_modulus]
    rw [if_pos h]
  · intro h
    rw [pow_two] at h
    simp only [Bingham.apparent_modulus]
    rw [if_neg (not_lt.mpr h)]
  · intro h0 h
    rw [pow_two] at h
    simp only [Bingham.apparent_modulus]
    rw [if_pos h, h0, zero_div, zero_add]

/-- C3 (witness): on a material with `tau0 = 0` and a unit strain rate, the
modulus degenerates to the Newtonian value. -/
theorem bingham_apparent_modulus_spec_witness :
    bingham_newtonian.tau0_ = 0 ∧
    2 * dot6 ones6 ones6 > bingham_newtonian.floored_critical_shear_rate ^ 2 ∧
    bingham_newtonian.apparent_modulus ones6 = 2 * bingham_newtonian.mu_ := by
  have hflo : bingham_newtonian.floored_critical_shear_rate = 1 := by
    show (if (1:ℝ) < 1e-15 then (1e-15:ℝ) else 1) = 1
    rw [if_neg (by norm_num : ¬ ((1:ℝ) < 1e-15))]
  have hg : 2 * dot6 ones6 ones6 > bingham_newtonian.floored_critical_shear_rate ^ 2 := by
    rw [hflo]
    norm_num [dot6, ones6, Fin.sum_univ_six]
  exact ⟨rfl, hg, (bingham_apparent_modulus_spec bingham_newtonian ones6).2.2 rfl hg⟩

/-- C4: after the trial deviatoric stress `tau = modulus * strain_rate` is
formed, it is zeroed entirely when `tau . tau < 2 * tau0 ^ 2` and left
unchanged (not rescaled) otherwise (bingham.tcc lines 88-91). -/
theorem bingham_von_mises_zeroing (m : Bingham) (sr : Vector6) :
    (dot6 (fun i => m.apparent_modulus sr * sr i) (fun i => m.apparent_modulus sr * sr i) <
        2 * (m.tau0_ * m.tau0_) →
      m.tau_final sr = fun _ => 0) ∧
    (2 * (m.tau0_ * m.tau0_) ≤
        dot6 (fun i => m.apparent_modulus sr * sr i) (fun i => m.apparent_modulus sr * sr i) →
      m.tau_final sr = fun i => m.apparent_modulus sr * sr i) := by
  constructor
  · intro h
    simp only [Bingham.tau_final]
    rw [if_pos h]
  · intro h
    simp only [Bingham.tau_final]
    rw [if_neg (not_lt.mpr h)]

/-- C4 (witness): on a material with a nonzero yield stress and a zero strain
rate the trial deviatoric stress is below the yield surface and is zeroed. -/
theorem bingham_von_mises_zeroing_witness :
    dot6 (fun i => bingham_yield.apparent_modulus zero6 * zero6 i)
        (fun i => bingham_yield.apparent_modulus zero6 * zero6 i) <
      2 * (bingham_yield.tau0_ * bingham_yield.tau0_) ∧
    bingham_yield.tau_final zero6 = fun _ => 0 := by
  have h : dot6 (fun i => bingham_yield.apparent_modulus zero6 * zero6 i)
      (fun i => bingham_yield.apparent_modulus zero6 * zero6 i) <
      2 * (bingham_yield.tau0_ * bingham_yield.tau0_) := by
    have hz : (fun i => bingham_yield.apparent_modulus zero6 * zero6 i) =
        fun _ => (0:ℝ) := by
      funext i
      simp [zero6]
    rw [hz]
    have hd : dot6 (fun _ => (0:ℝ)) (fun _ => 0) = 0 := by
      simp [dot6]
    rw [hd]
    show (0:ℝ) < 2 * (bingham_yield.tau0_ * bingham_yield.tau0_)
    norm_num [bingham_yield]
  exact ⟨h, (bingham_von_mises_zeroing bingham_yield zero6).1 h⟩

/-- C6: for a particle at rest (zero phase-0 strain rate), the returned stress
carries no deviatoric contribution and its hydrostatic value is the old
pressure `trace(stress)/3` plus `K * (dstrain(0)+dstrain(1)+dstrain(2))` with
`K = E / (3 * (1 - 2 * nu))`: in 2D the two in-plane normal components both
equal that pressure and all other components vanish; in 3D the stress is that
pressure times the Voigt dirac delta. -/
theorem bingham_rest_state_pressure_update (m : Bingham) (Tdim : ℕ)
    (stress dstrain : Vector6) (ptr : ParticleBase)
    (hrest : ptr.strain_rate 0 = fun _ => 0) :
    (Tdim = 2 →
      (m.compute_stress3 Tdim stress dstrain ptr).stress_results = fun i =>
        if i = 0 ∨ i = 1 then
          (stress 0 + stress 1 + stress 2) / 3 +
            m.youngs_modulus_ / (3 * (1 - 2 * m.poisson_ratio_)) *
              (dstrain 0 + dstrain 1 + dstrain 2)
        else 0) ∧
    (Tdim = 3 →
      (m.compute_stress3 Tdim stress dstrain ptr).stress_results = fun i =>
        ((stress 0 + stress 1 + stress 2) / 3 +
          m.youngs_modulus_ / (3 * (1 - 2 * m.poisson_ratio_)) *
            (dstrain 0 + dstrain 1 + dstrain 2)) * dirac_delta i) := by
  constructor <;> intro hdim <;> subst hdim <;>
    simp only [Bingham.compute_stress3, hrest, tau_final_rest, Bingham.pressure_new]
  · rw [if_pos trivial]
    funext i
    fin_cases i <;> simp
  · rw [if_pos trivial]
    funext i
    exact add_zero _

/-- C6 (witness): instantiated in 2D on a resting particle with unit stress
and unit strain increment. -/
theorem bingham_rest_state_pressure_update_witness :
    particle_rest.strain_rate 0 = (fun _ => 0) ∧
    (bingham_newtonian.compute_stress3 2 ones6 ones6 particle_rest).stress_results = fun i =>
      if i = 0 ∨ i = 1 then
        (ones6 0 + ones6 1 + ones6 2) / 3 +
          bingham_newtonian.youngs_modulus_ /
              (3 * (1 - 2 * bingham_newtonian.poisson_ratio_)) *
            (ones6 0 + ones6 1 + ones6 2)
      else 0 :=
  ⟨rfl,
    (bingham_rest_state_pressure_update bingham_newtonian 2 ones6 ones6 particle_rest rfl).1
      rfl⟩

/-- C8: the final assembly (bingham.tcc lines 94-108).  In 2D only three of
the six Voigt components are written: component 0 is `tau(0) + p_new`,
component 1 is `tau(1) + p_new`, component 3 is `tau(2)`, and components 2, 4,
5 are exactly zero.  In 3D the result is `p_new * [1,1,1,0,0,0] + tau`. -/
theorem bingham_stress_assembly (m : Bingham) (Tdim : ℕ)
    (stress dstrain : Vector6) (ptr : ParticleBase) :
    (Tdim = 2 →
      (m.compute_stress3 Tdim stress dstrain ptr).stress_results 0 =
          m.tau_final (ptr.strain_rate 0) 0 + m.pressure_new stress dstrain ∧
        (m.compute_stress3 Tdim stress dstrain ptr).stress_results 1 =
          m.tau_final (ptr.strain_rate 0) 1 + m.pressure_new stress dstrain ∧
        (m.compute_stress3 Tdim stress dstrain ptr).stress_results 3 =
          m.tau_final (ptr.strain_rate 0) 2 ∧
        (m.compute_stress3 Tdim stress dstrain ptr).stress_results 2 = 0 ∧
        (m.compute_stress3 Tdim stress dstrain ptr).stress_results 4 = 0 ∧
        (m.compute_stress3 Tdim stress dstrain ptr).stress_results 5 = 0) ∧
    (Tdim = 3 →
      ∀ i, (m.compute_stress3 Tdim stress dstrain ptr).stress_results i =
        m.pressure_new stress dstrain * dirac_delta i +
          m.tau_final (ptr.strain_rate 0) i) := by
  constructor <;> intro hdim <;> subst hdim
  · exact ⟨rfl, rfl, rfl, rfl, rfl, rfl⟩
  · intro i
    rfl

/-- C8 (witness): the 2D assembly instantiated on a sheared particle. -/
theorem bingham_stress_assembly_witness :
    (bingham_yield.compute_stress3 2 ones6 ones6 particle_shear).stress_results 0 =
        bingham_yield.tau_final (particle_shear.strain_rate 0) 0 +
          bingham_yield.pressure_new ones6 ones6 ∧
      (bingham_yield.compute_stress3 2 ones6 ones6 particle_shear).stress_results 1 =
        bingham_yield.tau_final (particle_shear.strain_rate 0) 1 +
          bingham_yield.pressure_new ones6 ones6 ∧
      (bingham_yield.compute_stress3 2 ones6 ones6 particle_shear).stress_results 3 =
        bingham_yield.tau_final (particle_shear.strain_rate 0) 2 ∧
      (bingham_yield.compute_stress3 2 ones6 ones6 particle_shear).stress_results 2 = 0 ∧
      (bingham_yield.compute_stress3 2 ones6 ones6 particle_shear).stress_results 4 = 0 ∧
      (bingham_yield.compute_stress3 2 ones6 ones6 particle_shear).stress_results 5 = 0 :=
  (bingham_stress_assembly bingham_yield 2 ones6 ones6 particle_shear).1 rfl

/-- C7: after `Bingham::properties` runs on a not-yet-valid material, the
status flag is true if and only if all six required parameters (density,
youngs_modulus, poisson_ratio, tau0, mu, critical_shear_rate) are present and
parseable as doubles; any failure is absorbed inside the function (the model
of `properties` is a total function: the C++ `catch` of bingham.tcc lines
16-18 prints the message and returns, so no exception reaches the caller) and
leaves the instance invalid. -/
theorem bingham_properties_status_iff (m : Bingham) (j : Json)
    (hstatus : m.status_ = false) :
    ((m.properties j).status_ = true ↔ allKeysParse j = true) := by
  simp only [Bingham.properties, allKeysParse, requiredKeys, List.all_cons, List.all_nil]
  cases h0 : j ("density") <;>
    cases h1 : j ("youngs_modulus") <;>
      cases h2 : j ("poisson_ratio") <;>
        cases h3 : j ("tau0") <;>
          cases h4 : j ("mu") <;>
            cases h5 : j ("critical_shear_rate") <;>
              simp [h0, h1, h2, h3, h4, h5, hstatus]

/-- C7 (witness): an invalid material configured from a complete dictionary
becomes valid. -/
theorem bingham_properties_status_iff_witness :
    bingham_zero_crit.status_ = false ∧ allKeysParse json_full = true ∧
    (bingham_zero_crit.properties json_full).status_ = true :=
  ⟨rfl, rfl, (bingham_properties_status_iff bingham_zero_crit json_full rfl).mpr rfl⟩

/-- C9: `Bingham::properties` is not atomic on failure.  If the key at
position `i` of the read order is missing or unparseable while all earlier
keys parse, then: the stored `properties_` copy is not updated, the status
flag is not changed (in particular not set to true), every parameter before
the failing key keeps its newly assigned value from the dictionary, and every
parameter from the failing key on keeps its old value. -/
theorem bingham_properties_not_atomic (m : Bingham) (j : Json) (i : Fin 6)
    (hfail : j (requiredKey i) = none)
    (hbefore : ∀ k : Fin 6, k < i → (j (requiredKey k)).isSome = true) :
    (m.properties j).properties_ = m.properties_ ∧
    (m.properties j).status_ = m.status_ ∧
    (∀ k : Fin 6, k < i → some ((m.properties j).param k) = j (requiredKey k)) ∧
    (∀ k : Fin 6, i ≤ k → (m.properties j).param k = m.param k) := by
  fin_cases i
  · have hf : j ("density") = none := hfail
    have hm : m.properties j = m := by
      simp only [Bingham.properties, hf]
    rw [hm]
    refine ⟨rfl, rfl, ?_, ?_⟩
    · intro k hk
      fin_cases k
      all_goals exact absurd hk (by decide)
    · intro k hk
      rfl
  · have hf : j ("youngs_modulus") = none := hfail
    obtain ⟨d, hd⟩ := Option.isSome_iff_exists.mp (hbefore 0 (by decide))
    have hd2 : j ("density") = some d := hd
    have hm : m.properties j = { m with density_ := d } := by
      simp only [Bingham.properties, hd2, hf]
    rw [hm]
    refine ⟨rfl, rfl, ?_, ?_⟩
    · intro k hk
      fin_cases k
      · exact hd2.symm
      all_goals exact absurd hk (by decide)
    · intro k hk
      fin_cases k
      · exact absurd hk (by decide)
      all_goals rfl
  · have hf : j ("poisson_ratio") = none := hfail
    obtain ⟨d, hd⟩ := Option.isSome_iff_exists.mp (hbefore 0 (by decide))
    obtain ⟨e, he⟩ := Option.isSome_iff_exists.mp (hbefore 1 (by decide))
    have hd2 : j ("density") = some d := hd
    have he2 : j ("youngs_modulus") = some e := he
    have hm : m.properties j = { m with density_ := d, youngs_modulus_ := e } := by
      simp only [Bingham.properties, hd2, he2, hf]
    rw [hm]
    refine ⟨rfl, rfl, ?_, ?_⟩
    · intro k hk
      fin_cases k
      · exact hd2.symm
      · exact he2.symm
      all_goals exact absurd hk (by decide)
    · intro k hk
      fin_cases k
      · exact absurd hk (by decide)
      · exact absurd hk (by decide)
      all_goals rfl
  · have hf : j ("tau0") = none := hfail
    obtain ⟨d, hd⟩ := Option.isSome_iff_exists.mp (hbefore 0 (by decide))
    obtain ⟨e, he⟩ := Option.isSome_iff_exists.mp (hbefore 1 (by decide))
    obtain ⟨p, hp⟩ := Option.isSome_iff_exists.mp (hbefore 2 (by decide))
    have hd2 : j ("density") = some d := hd
    have he2 : j ("youngs_modulus") = some e := he
    have hp2 : j ("poisson_ratio") = some p := hp
    have hm : m.properties j = { m with density_ := d, youngs_modulus_ := e, poisson_ratio_ := p } := by
      simp only [Bingham.properties, hd2, he2, hp2, hf]
    rw [hm]
    refine ⟨rfl, rfl, ?_, ?_⟩
    · intro k hk
      fin_cases k
      · exact hd2.symm
      · exact he2.symm
      · exact hp2.symm
      all_goals exact absurd hk (by decide)
    · intro k hk
      fin_cases k
      · exact absurd hk (by decide)
      · exact absurd hk (by decide)
      · exact absurd hk (by decide)
      all_goals rfl
  · have hf : j ("mu") = none := hfail
    obtain ⟨d, hd⟩ := Option.isSome_iff_exists.mp (hbefore 0 (by decide))
    obtain ⟨e, he⟩ := Option.isSome_iff_exists.mp (hbefore 1 (by decide))
    obtain ⟨p, hp⟩ := Option.isSome_iff_exists.mp (hbefore 2 (by decide))
    obtain ⟨t, ht⟩ := Option.isSome_iff_exists.mp (hbefore 3 (by decide))
    have hd2 : j ("density") = some d := hd
    have he2 : j ("youngs_modulus") = some e := he
    have hp2 : j ("poisson_ratio") = some p := hp
    have ht2 : j ("tau0") = some t := ht
    have hm : m.properties j = { m with density_ := d, youngs_modulus_ := e, poisson_ratio_ := p, tau0_ := t } := by
      simp only [Bingham.properties, hd2, he2, hp2, ht2, hf]
    rw [hm]
    refine ⟨rfl, rfl, ?_, ?_⟩
    · intro k hk
      fin_cases k
      · exact hd2.symm
      · exact he2.symm
      · exact hp2.symm
      · exact ht2.symm
      all_goals exact absurd hk (by decide)
    · intro k hk
      fin_cases k
      · exact absurd hk (by decide)
      · exact absurd hk (by decide)
      · exact absurd hk (by decide)
      · exact absurd hk (by decide)
      all_goals rfl
  · have hf : j ("critical_shear_rate") = none := hfail
    obtain ⟨d, hd⟩ := Option.isSome_iff_exists.mp (hbefore 0 (by decide))
    obtain ⟨e, he⟩ := Option.isSome_iff_exists.mp (hbefore 1 (by decide))
    obtain ⟨p, hp⟩ := Option.isSome_iff_exists.mp (hbefore 2 (by decide))
    obtain ⟨t, ht⟩ := Option.isSome_iff_exists.mp (hbefore 3 (by decide))
    obtain ⟨u, hu⟩ := Option.isSome_iff_exists.mp (hbefore 4 (by decide))
    have hd2 : j ("density") = some d := hd
    have he2 : j ("youngs_modulus") = some e := he
    have hp2 : j ("poisson_ratio") = some p := hp
    have ht2 : j ("tau0") = some t := ht
    have hu2 : j ("mu") = some u := hu
    have hm : m.properties j = { m with density_ := d, youngs_modulus_ := e, poisson_ratio_ := p, tau0_ := t, mu_ := u } := by
      simp only [Bingham.properties, hd2, he2, hp2, ht2, hu2, hf]
    rw [hm]
    refine ⟨rfl, rfl, ?_, ?_⟩
    · intro k hk
      fin_cases k
      · exact hd2.symm
      · exact he2.symm
      · exact hp2.symm
      · exact ht2.symm
      · exact hu2.symm
      all_goals exact absurd hk (by decide)
    · intro k hk
      fin_cases k
      · exact absurd hk (by decide)
      · exact absurd hk (by decide)
      · exact absurd hk (by decide)
      · exact absurd hk (by decide)
      · exact absurd hk (by decide)
      all_goals rfl

/-- C9 (witness): a dictionary missing `youngs_modulus` updates `density_` but
leaves `properties_`, the status flag and the five later parameters
untouched. -/
theorem bingham_properties_not_atomic_witness :
    json_missing_young (requiredKey 1) = none ∧
    some ((bingham_yield.properties json_missing_young).param 0) =
      json_missing_young (requiredKey 0) ∧
    (bingham_yield.properties json_missing_young).properties_ =
      bingham_yield.properties_ ∧
    (bingham_yield.properties json_missing_young).status_ = bingham_yield.status_ ∧
    (∀ k : Fin 6, (1 : Fin 6) ≤ k →
      (bingham_yield.properties json_missing_young).param k = bingham_yield.param k) := by
  have hfail : json_missing_young (requiredKey 1) = none := rfl
  have hbefore : ∀ k : Fin 6, k < 1 →
      (json_missing_young (requiredKey k)).isSome = true := by
    intro k hk
    fin_cases k
    · rfl
    all_goals exact absurd hk (by decide)
  obtain ⟨h1, h2, h3, h4⟩ :=
    bingham_properties_not_atomic bingham_yield json_missing_young 1 hfail hbefore
  exact ⟨hfail, h3 0 (by decide), h1, h2, h4⟩

end MPM
